import Mathlib

/-!
Verification development for the `interactive_agents` repository.

We give a shallow embedding of the two source files:
* `src/junk/torch_r2d2_test.py` — the R2D2 replay buffer, rollout loop,
  epsilon-greedy action selection, target-network synchronization, and the
  sequence loss; and
* `src/interactive_agents/training/independent.py` — the independent
  multi-agent trainer (construction checks and per-iteration statistics).

Tensor scalars are modelled over `ℤ` (for structural claims about the buffer,
where only which entry sits where matters) and over `ℚ` (for the loss, where
Huber arithmetic needs division).  A tensor of shape `(T, B)` is a function
`Fin T → Fin B → _` or a list of rows; the feature dimension of an
observation is collapsed to one scalar per timestep, which loses nothing for
the claims at hand.  Randomness (sampled indices, exploration draws, sampled
actions) is passed in as explicit arguments, the standard resolution of
`np.random` calls. Python exceptions are modelled with `Except String`.
-/

/-- Embedding of `nn.functional.one_hot`: the length-`n` 0/1 row with a `1` at
position `a` (from `ReplayBuffer.add`, which one-hot encodes actions). -/
def oneHot (n a : ℕ) : List ℤ :=
  (List.range n).map (fun i => if i = a then 1 else 0)

/-- Python list item assignment `l[i] = x`: succeeds exactly when
`i < len(l)`, otherwise raises an `IndexError`. -/
def listSet (l : List α) (i : ℕ) (x : α) : Except String (List α) :=
  if i < l.length then Except.ok (l.set i x)
  else Except.error "IndexError: list assignment index out of range"

/-- The replay buffer state of `ReplayBuffer.__init__`
(`torch_r2d2_test.py`, lines 79-88): an action cardinality
(`action_space.n`), a capacity, a write cursor `_index`, and four parallel
episode lists.  Each stored episode keeps its observation sequence (one
scalar per step), its one-hot action rows, its rewards and its 0/1 done
flags. -/
structure ReplayBuffer where
  n : ℕ
  capacity : ℕ
  index : ℕ
  obs : List (List ℤ)
  actions : List (List (List ℤ))
  rewards : List (List ℤ)
  dones : List (List ℤ)
  deriving Repr, DecidableEq

/-- A freshly constructed buffer: cursor `0`, all four lists empty. -/
def ReplayBuffer.init (n capacity : ℕ) : ReplayBuffer :=
  ⟨n, capacity, 0, [], [], [], []⟩

/-- Translation of `ReplayBuffer.add` (`torch_r2d2_test.py`, lines 90-108), done
verbatim: actions are one-hot encoded and dones cast to 0/1 scalars; the
branch condition is the source's `len(obs) < self._capacity` — the length of
the incoming episode's observation sequence, not the number of stored
episodes.  The append branch appends to all four lists; the other branch
assigns at `_index` into each list (each assignment bounds-checked as in
Python); finally the cursor advances modulo capacity. -/
def ReplayBuffer.add (b : ReplayBuffer) (obs : List ℤ) (acts : List ℕ)
    (rews : List ℤ) (dns : List Bool) : Except String ReplayBuffer :=
  let actionsT := acts.map (oneHot b.n)
  let donesT := dns.map (fun d => if d then (1 : ℤ) else 0)
  if obs.length < b.capacity then
    Except.ok { b with
      obs := b.obs ++ [obs]
      actions := b.actions ++ [actionsT]
      rewards := b.rewards ++ [rews]
      dones := b.dones ++ [donesT]
      index := (b.index + 1) % b.capacity }
  else do
    let o ← listSet b.obs b.index obs
    let a ← listSet b.actions b.index actionsT
    let r ← listSet b.rewards b.index rews
    let d ← listSet b.dones b.index donesT
    Except.ok { b with
      obs := o
      actions := a
      rewards := r
      dones := d
      index := (b.index + 1) % b.capacity }

/-- Embedding of `nn.utils.rnn.pad_sequence`: stacks variable-length sequences into a
`(maxLen, batch)` array, right-padding each sequence with `pad` (torch pads
with zeros of the element shape; the pad element is passed explicitly). -/
def padSequence (pad : α) (seqs : List (List α)) : List (List α) :=
  let maxLen := (seqs.map List.length).foldr max 0
  (List.range maxLen).map (fun t => seqs.map (fun s => s.getD t pad))

/-- Translation of `ReplayBuffer.sample` (`torch_r2d2_test.py`, lines 110-128) with the
drawn indices (`np.random.randint(len(self._actions), size=batch_size)`)
passed explicitly: per sampled episode take the observations without the
last step (`[:-1]`), the observations without the first step (`[1:]`), the
stored one-hot actions, rewards and dones, and a mask of ones shaped like
the dones; pad all six with zeros (a zero row of width `n` for the one-hot
actions) and return the six aligned arrays. -/
def ReplayBuffer.sample (b : ReplayBuffer) (indices : List ℕ) :
    List (List ℤ) × List (List ℤ) × List (List (List ℤ)) ×
    List (List ℤ) × List (List ℤ) × List (List ℤ) :=
  let obs_batch := indices.map (fun idx => (b.obs.getD idx []).dropLast)
  let next_obs_batch := indices.map (fun idx => (b.obs.getD idx []).tail)
  let action_batch := indices.map (fun idx => b.actions.getD idx [])
  let reward_batch := indices.map (fun idx => b.rewards.getD idx [])
  let done_batch := indices.map (fun idx => b.dones.getD idx [])
  let mask := indices.map (fun idx => (b.dones.getD idx []).map (fun _ => (1 : ℤ)))
  (padSequence 0 obs_batch, padSequence 0 next_obs_batch,
   padSequence (List.replicate b.n 0) action_batch,
   padSequence 0 reward_batch, padSequence 0 done_batch, padSequence 0 mask)

example :
    (ReplayBuffer.init 2 3).add [5, 6] [1] [7] [true] =
    Except.ok ⟨2, 3, 1, [[5, 6]], [[[0, 1]]], [[7]], [[1]]⟩ := by rfl

example :
    (ReplayBuffer.init 2 1).add [5, 6] [1] [7] [true] =
    Except.error "IndexError: list assignment index out of range" := by rfl

/-! ## The rollout loop of `R2D2.train` (`torch_r2d2_test.py`, lines 220-240)

The environment is abstract: a state type `σ`, a step function returning the
next state, the next observation, a reward and a done flag (gym's
`obs, reward, done, _ = env.step(action)`).  The acting agent is likewise a
state-and-observation function (it covers `R2D2.act` with its hidden state
and exploration randomness folded into the agent state).  The `while not
done` loop is given fuel; `none` means the fuel ran out before the
environment signalled done. -/

/-- One collected episode: the four per-rollout lists. -/
structure Episode (Obs Act : Type) where
  observations : List Obs
  actions : List Act
  rewards : List ℚ
  dones : List Bool
  deriving Repr, DecidableEq

/-- The body of `while not done:` — act, step the environment, append the
observation, action, reward and done flag to the four lists; repeat until
`done` or the fuel is exhausted. -/
def rolloutLoop (stp : σ → Act → σ × Obs × ℚ × Bool)
    (act : α → Obs → Act × α) :
    ℕ → σ → α → Obs → List Obs → List Act → List ℚ → List Bool →
    Option (Episode Obs Act)
  | 0, _, _, _, _, _, _, _ => none
  | fuel + 1, es, ag, obs, obsL, actL, rewL, doneL =>
    let (action, ag2) := act ag obs
    let (es2, obs2, reward, done) := stp es action
    let obsL2 := obsL ++ [obs2]
    let actL2 := actL ++ [action]
    let rewL2 := rewL ++ [reward]
    let doneL2 := doneL ++ [done]
    if done then some ⟨obsL2, actL2, rewL2, doneL2⟩
    else rolloutLoop stp act fuel es2 ag2 obs2 obsL2 actL2 rewL2 doneL2

/-- One full episode collection from `R2D2.train`: reset the environment
(the initial state `es0` and initial observation `obs0` are the result of
`env.reset()`), start `observations = [obs]`, the other lists empty, and run
the loop. -/
def rollout (stp : σ → Act → σ × Obs × ℚ × Bool) (act : α → Obs → Act × α)
    (fuel : ℕ) (es0 : σ) (ag0 : α) (obs0 : Obs) : Option (Episode Obs Act) :=
  rolloutLoop stp act fuel es0 ag0 obs0 [obs0] [] [] []

/-! ## Target-network synchronization in `R2D2.train`
(`torch_r2d2_test.py`, lines 214-218 and 242-247)

Network parameters are an abstract type `P`.  Each `train()` call first
increments `_iterations`, then — when the new count is a multiple of
`sync_interval` — loads the online parameters into the target network, and
later performs the iteration's gradient steps on the online parameters.
Rollouts read but never write parameters, so the value copied into the
target network is the online value at the start of the call.  The combined
effect of the call's `num_batches` optimizer steps is an abstract update
`grad : ℕ → P → P`, indexed by the zero-based call number so different calls
may update differently. -/

/-- The learner state that `train()` touches: the call counter
`_iterations`, the online parameters and the target parameters. -/
structure LearnerState (P : Type) where
  iterations : ℕ
  online : P
  target : P
  deriving Repr, DecidableEq

/-- One `R2D2.train()` call: increment the counter; on every
`syncInterval`-th call copy the online parameters into the target network;
then apply the call's gradient steps to the online parameters. -/
def R2D2.trainSync (syncInterval : ℕ) (grad : ℕ → P → P)
    (s : LearnerState P) : LearnerState P :=
  let it := s.iterations + 1
  let tgt := if it % syncInterval = 0 then s.online else s.target
  { iterations := it, online := grad s.iterations s.online, target := tgt }

/-- Iterates `n` successive `train()` calls from state `s0`. -/
def R2D2.runTrain (syncInterval : ℕ) (grad : ℕ → P → P)
    (s0 : LearnerState P) : ℕ → LearnerState P
  | 0 => s0
  | n + 1 => R2D2.trainSync syncInterval grad (R2D2.runTrain syncInterval grad s0 n)

/-! ## Action selection (`torch_r2d2_test.py`, lines 131-143 and 202-212)

The recurrent network is abstract: `net : H → O → List ℚ × H` maps a hidden
state and an observation to the flattened q-value row and the new hidden
state (the `q_values, self._state = self._model(obs.reshape([1,1,-1]),
self._state)` line).  The exploration randomness of `R2D2.act` is explicit:
`draw` is the `np.random.random()` result and `randAct` the
`self._env.action_space.sample()` result. -/

/-- Embedding of `torch.argmax` over a flat row: index of the first maximal entry. -/
def argmaxL : List ℚ → ℕ
  | [] => 0
  | x :: xs =>
    let rest := argmaxL xs
    if x < xs.getD rest x then rest + 1 else 0

/-- Translation of `R2D2.act` (lines 206-212): run the network, store the new hidden state;
if `explore` and the draw is at most epsilon return the sampled random
action, otherwise the argmax of the q-values.  Returns the chosen action and
the hidden state left in `self._state`. -/
def R2D2.act (net : H → O → List ℚ × H) (epsilon : ℚ) (state : H) (obs : O)
    (explore : Bool) (draw : ℚ) (randAct : ℕ) : ℕ × H :=
  let qs := net state obs
  if explore ∧ draw ≤ epsilon then (randAct, qs.2)
  else (argmaxL qs.1, qs.2)

/-- Translation of `Policy.act` (lines 140-143): run the network, store the new hidden
state, return the argmax of the q-values.  The `explore` argument is
accepted (its Python default is `False`) but never read. -/
def Policy.act (net : H → O → List ℚ × H) (state : H) (obs : O)
    (_explore : Bool) : ℕ × H :=
  let qs := net state obs
  (argmaxL qs.1, qs.2)

/-! ## The sequence loss `R2D2._loss` (`torch_r2d2_test.py`, lines 190-200)

Scalars carry forward-mode derivatives: a `Dual` is a value paired with its
derivative along one fixed direction in parameter space.  `detach` is
torch's `Tensor.detach`: same value, zero derivative.  The network outputs
(`Q_online(obs)` and `Q_target(next_obs)`, tensors of shape `(T, B, A)`) are
inputs of the loss, the networks themselves being opaque differentiable
functions; the `A` axis is a list per `(t, b)` position. -/

/-- A forward-mode scalar: `(value, derivative)`.  `Prod` addition,
subtraction and negation are exactly dual-number addition, subtraction and
negation. -/
abbrev Dual := ℚ × ℚ

/-- A constant scalar (a Python float in the source): zero derivative. -/
def dconst (c : ℚ) : Dual := (c, 0)

/-- Dual multiplication: product rule in the derivative. -/
def dmul (a b : Dual) : Dual := (a.1 * b.1, a.1 * b.2 + a.2 * b.1)

/-- Embedding of `Tensor.detach`: keep the value, cut the derivative. -/
def detach (a : Dual) : Dual := (a.1, 0)

/-- Multiplication by a constant. -/
def dscale (c : ℚ) (a : Dual) : Dual := (c * a.1, c * a.2)

/-- Embedding of `nn.functional.smooth_l1_loss(input, target, beta, reduction=none)`,
elementwise: with `z = input - target`, the branch `|z| < beta` gives
`0.5 * z^2 / beta` and the other branch `|z| - 0.5 * beta`, each with its
derivative. -/
def smoothL1 (beta : ℚ) (input target : Dual) : Dual :=
  let z := input - target
  if |z.1| < beta then dscale (1 / (2 * beta)) (dmul z z)
  else (|z.1| - beta / 2, if z.1 < 0 then -z.2 else z.2)

/-- Embedding of `Tensor.max(-1).values` along the action axis: the maximal element by
value (gradient routed to the selected entry, as in torch). -/
def dmaxRow : List Dual → Dual
  | [] => (0, 0)
  | x :: xs => xs.foldl (fun m y => if m.1 < y.1 then y else m) x

/-- Translation of `R2D2._loss`, line by line on dual scalars:
`q_targets = reward + gamma * (1 - done) * target_q.max(-1).values`,
`online_q = (action * online_q).sum(-1)`,
`errors = smooth_l1_loss(online_q, q_targets.detach(), beta,
reduction=none)`, and the result `torch.mean(mask * errors)` — the sum over
all `T * B` positions divided by the full padded size `T * B`. -/
def R2D2.loss (T B : ℕ) (gamma beta : ℚ)
    (onlineQ targetQ action : Fin T → Fin B → List Dual)
    (reward done mask : Fin T → Fin B → Dual) : Dual :=
  let qTargets : Fin T → Fin B → Dual := fun t b =>
    reward t b +
      dmul (dmul (dconst gamma) (dconst 1 - done t b)) (dmaxRow (targetQ t b))
  let onlineSel : Fin T → Fin B → Dual := fun t b =>
    (List.zipWith dmul (action t b) (onlineQ t b)).sum
  let errors : Fin T → Fin B → Dual := fun t b =>
    smoothL1 beta (onlineSel t b) (detach (qTargets t b))
  dscale (1 / (T * B)) (∑ t : Fin T, ∑ b : Fin B, dmul (mask t b) (errors t b))

/-- The Huber/smooth-L1 error with transition threshold `beta`, as the spec
words it, on plain values. -/
def huberSpec (beta : ℚ) (x y : ℚ) : ℚ :=
  if |x - y| < beta then (x - y) ^ 2 / (2 * beta) else |x - y| - beta / 2

/-- Evaluation of `max_a q a` over the action axis, on plain values. -/
def listMaxQ : List ℚ → ℚ
  | [] => 0
  | x :: xs => xs.foldl max x

/-- The loss as the spec words it, on plain values: the mean over the entire
padded tensor — divisor the full padded size `T * B`, not the count of valid
timesteps — of mask times the Huber error between the sum over actions of
`one_hot_action * Q_online(obs)` and the bootstrap target
`reward + gamma * (1 - done) * max_a Q_target(next_obs, a)`. -/
def lossSpec (T B : ℕ) (gamma beta : ℚ)
    (onlineQ targetQ action : Fin T → Fin B → List ℚ)
    (reward done mask : Fin T → Fin B → ℚ) : ℚ :=
  (∑ t : Fin T, ∑ b : Fin B,
      mask t b *
        huberSpec beta ((List.zipWith (· * ·) (action t b) (onlineQ t b)).sum)
          (reward t b + gamma * (1 - done t b) * listMaxQ (targetQ t b))) /
    (T * B)

/-! ## `IndependentTrainer` (`independent.py`)

The sampler, the environment registry, the learner registry and the learner
objects live in modules outside this repository snapshot; they enter as
abstract types and total functions.  The sampler's statistics dictionaries
are finite key-value lists; the training-phase dictionary is guaranteed by
the sampler contract to carry `episodes` and `samples` entries, modelled as
named fields. -/

/-- A sampler statistics dictionary: the guaranteed `episodes` and
`samples` entries plus the remaining key-value pairs. -/
structure SampleStats where
  episodes : ℚ
  samples : ℚ
  extra : List (String × ℚ)

/-- The dictionary's key-value pairs in order. -/
def SampleStats.entries (s : SampleStats) : List (String × ℚ) :=
  ("episodes", s.episodes) :: ("samples", s.samples) :: s.extra

/-- The accumulated statistics of `IndependentTrainer.__init__`
(`independent.py`, lines 53-59). -/
structure TrainerState where
  total_iterations : ℕ
  total_episodes : ℚ
  total_samples : ℚ
  total_sampling_time : ℚ
  total_learning_time : ℚ
  deriving Repr, DecidableEq

/-- Translation of `IndependentTrainer.train` (`independent.py`, lines 61-121), restricted
to its statistics bookkeeping.  The data produced by the collaborators is
passed in: `batchStats` is the training-phase sampler's statistics,
`learnerStats` maps each agent id to its learner's statistics, `evalStats`
is the evaluation-phase sampler's statistics, and the three elapsed times
are the stopwatch readings.  Returns the new accumulated state and the flat
result dictionary, built in the source's insertion order. -/
def IndependentTrainer.trainStep (s : TrainerState) (batchStats : SampleStats)
    (learnerStats : List (String × List (String × ℚ)))
    (evalStats : List (String × ℚ))
    (sampleElapsed learnElapsed totalElapsed : ℚ) :
    TrainerState × List (String × ℚ) :=
  let stats0 := batchStats.entries.map (fun kv => ("sampling/" ++ kv.1, kv.2))
  let stats1 := stats0 ++
    [("sampling/episodes_per_s", batchStats.episodes / sampleElapsed),
     ("sampling/samples_per_s", batchStats.samples / sampleElapsed)]
  let samplingTime := s.total_sampling_time + sampleElapsed
  let stats2 := stats1 ++ [("sampling/total_time_s", samplingTime)]
  let iters := s.total_iterations + 1
  let episodes := s.total_episodes + batchStats.episodes
  let samples := s.total_samples + batchStats.samples
  let stats3 := stats2 ++
    [("total_iterations", (iters : ℚ)), ("total_episodes", episodes),
     ("total_samples", samples)]
  let stats4 := stats3 ++
    (learnerStats.map (fun idkv =>
      idkv.2.map (fun kv => ("learning/" ++ idkv.1 ++ "/" ++ kv.1, kv.2)))).flatten
  let learningTime := s.total_learning_time + learnElapsed
  let stats5 := stats4 ++ [("learning/total_time_s", learningTime)]
  let stats6 := stats5 ++ evalStats.map (fun kv => ("eval/" ++ kv.1, kv.2))
  let stats7 := stats6 ++ [("total_time_s", totalElapsed)]
  (⟨iters, episodes, samples, samplingTime, learningTime⟩, stats7)

/-- The recognized configuration keys of `IndependentTrainer.__init__`
(`independent.py`, lines 10-36), each `none` when absent from the
dictionary.  `EC` and `LC` are the opaque environment and learner
configuration values. -/
structure TrainerConfig (EC LC : Type) where
  env : Option String
  env_config : Option EC
  env_eval_config : Option EC
  learner : Option String
  learner_config : Option LC
  iteration_episodes : Option ℕ
  eval_episodes : Option ℕ
  max_steps : Option ℕ

/-- The fully constructed trainer of `IndependentTrainer.__init__`. -/
structure IndependentTrainer (Env Learner Pol : Type) where
  iteration_episodes : ℕ
  eval_episodes : ℕ
  max_steps : ℕ
  env : Env
  eval_env : Env
  learners : List (String × Learner)
  training_policies : List (String × Pol)
  eval_policies : List (String × Pol)
  state : TrainerState

/-- Translation of `IndependentTrainer.__init__` (`independent.py`, lines 10-59): read the
optional keys with their defaults (100, 10, 100); if `env` is absent raise;
build the training and evaluation environments; if `learner` is absent
raise; build one learner per agent id declared by the environment's
observation-space dictionary, then a training policy and an eval policy per
learner; start all accumulated statistics at zero.  The external registries
and constructors enter as total functions: `get_env_class` resolves an
environment name and builds an environment from a configuration, `spaces`
reads a built environment's per-agent observation-space list and
action-space lookup, `get_learner_class` resolves a learner name and builds
a learner from the two spaces and a configuration, and `make_policy` is
`Learner.make_policy(eval)`.  `emptyEC` and `emptyLC` are the empty-dict
defaults of `env_config` and `learner_config`. -/
def IndependentTrainer.build {EC LC Space Env Learner Pol : Type}
    (get_env_class : String → EC → Env)
    (spaces : Env → List (String × Space) × (String → Space))
    (get_learner_class : String → Space → Space → LC → Learner)
    (make_policy : Learner → Bool → Pol)
    (emptyEC : EC) (emptyLC : LC) (config : TrainerConfig EC LC) :
    Except String (IndependentTrainer Env Learner Pol) :=
  let iteration_episodes := config.iteration_episodes.getD 100
  let eval_episodes := config.eval_episodes.getD 10
  let max_steps := config.max_steps.getD 100
  match config.env with
  | none => Except.error "must specify environment through env parameter"
  | some env_name =>
    let env_config := config.env_config.getD emptyEC
    let env_eval_config := config.env_eval_config.getD env_config
    let env := get_env_class env_name env_config
    let sp := spaces env
    let eval_env := get_env_class env_name env_eval_config
    match config.learner with
    | none => Except.error "must specify learning algorithm through learner parameter"
    | some learner_name =>
      let learner_config := config.learner_config.getD emptyLC
      let learners := sp.1.map (fun p =>
        (p.1, get_learner_class learner_name p.2 (sp.2 p.1) learner_config))
      let training_policies := learners.map (fun p => (p.1, make_policy p.2 false))
      let eval_policies := learners.map (fun p => (p.1, make_policy p.2 true))
      Except.ok ⟨iteration_episodes, eval_episodes, max_steps, env, eval_env,
        learners, training_policies, eval_policies, ⟨0, 0, 0, 0, 0⟩⟩

/-! ## Claims -/

/-- C1: the spec's ring-buffer invariant `len(buffer) ≤ capacity` fails on
the code: `ReplayBuffer.add` compares the incoming episode's observation
count against the capacity instead of the number of stored episodes, so a
buffer of capacity 3 holds 4 episodes after four insertions of 2-observation
episodes — the code evaluated at the failing input. -/
theorem C1_buffer_exceeds_capacity :
    ((do
      let b1 ← (ReplayBuffer.init 2 3).add [0, 1] [0] [0] [false]
      let b2 ← b1.add [0, 1] [0] [0] [false]
      let b3 ← b2.add [0, 1] [0] [0] [false]
      let b4 ← b3.add [0, 1] [0] [0] [false]
      Except.ok (b4.obs.length, b4.capacity)) : Except String (ℕ × ℕ)) =
    Except.ok (4, 3) := by rfl

/-- C10: when the incoming episode has at least `capacity` observations,
`ReplayBuffer.add` takes the overwrite branch (its condition compares the
episode's observation count, not the number of stored episodes, against
capacity); the branch assigns in place when the cursor is within the stored
lists, and raises an IndexError when the cursor is at or past their end —
in particular on a freshly constructed empty buffer. -/
theorem C10_add_overwrite_branch (b : ReplayBuffer) (obs : List ℤ)
    (acts : List ℕ) (rews : List ℤ) (dns : List Bool)
    (hcap : b.capacity ≤ obs.length)
    (hpar : b.actions.length = b.obs.length ∧ b.rewards.length = b.obs.length ∧
      b.dones.length = b.obs.length) :
    (b.index < b.obs.length →
      b.add obs acts rews dns = Except.ok { b with
        obs := b.obs.set b.index obs
        actions := b.actions.set b.index (acts.map (oneHot b.n))
        rewards := b.rewards.set b.index rews
        dones := b.dones.set b.index (dns.map (fun d => if d then (1 : ℤ) else 0))
        index := (b.index + 1) % b.capacity }) ∧
    (b.obs.length ≤ b.index →
      b.add obs acts rews dns =
        Except.error "IndexError: list assignment index out of range") := by
  obtain ⟨ha, hr, hd⟩ := hpar
  constructor <;> intro h <;>
    · simp [ReplayBuffer.add, listSet, not_lt.mpr hcap, h, ha, hr, hd,
        not_lt.mpr h, Except.bind]
      rfl

/-- C10 witness: a freshly constructed buffer of capacity 1 rejects a
2-observation episode with an IndexError. -/
theorem C10_add_overwrite_branch_witness :
    (ReplayBuffer.init 2 1).add [5, 6] [1] [7] [true] =
      Except.error "IndexError: list assignment index out of range" :=
  (C10_add_overwrite_branch (ReplayBuffer.init 2 1) [5, 6] [1] [7] [true]
    (by decide) (by decide)).2 (by decide)

/-- Auxiliary: the call counter after `n` `train()` calls. -/
theorem R2D2.runTrain_iterations (syncInterval : ℕ) (grad : ℕ → P → P)
    (s0 : LearnerState P) (n : ℕ) :
    (R2D2.runTrain syncInterval grad s0 n).iterations = s0.iterations + n := by
  induction n with
  | zero => rfl
  | succ n ih =>
    simp [R2D2.runTrain, R2D2.trainSync, ih]
    omega

/-- C2: with sync interval `K > 0` and the call counter starting at zero,
the `K`-th `train()` call copies the online parameters wholesale into the
target network: at the moment of the copy — the start of the `K`-th call,
before that call's gradient steps — the online parameters are those left by
the first `K - 1` calls, and the target becomes exactly that value.  On
every call whose count is not a multiple of `K` the target parameters are
left unchanged while the online parameters are still updated by the call's
gradient steps. -/
theorem C2_target_sync (P : Type) (K : ℕ) (grad : ℕ → P → P)
    (s0 : LearnerState P) (hK : 0 < K) (h0 : s0.iterations = 0) :
    ((R2D2.runTrain K grad s0 K).target = (R2D2.runTrain K grad s0 (K - 1)).online) ∧
    (∀ n : ℕ, (n + 1) % K ≠ 0 →
      (R2D2.runTrain K grad s0 (n + 1)).target = (R2D2.runTrain K grad s0 n).target ∧
      (R2D2.runTrain K grad s0 (n + 1)).online =
        grad n ((R2D2.runTrain K grad s0 n).online)) := by
  constructor
  · have hK1 : K - 1 + 1 = K := Nat.succ_pred_eq_of_pos hK
    conv_lhs => rw [← hK1]
    simp [R2D2.runTrain, R2D2.trainSync, R2D2.runTrain_iterations, h0, hK1,
      Nat.mod_self]
  · intro n hn
    constructor <;>
      simp [R2D2.runTrain, R2D2.trainSync, R2D2.runTrain_iterations, h0, hn]

/-- C2 witness: sync interval 2 over integer parameters with gradient step
`p + 1`: after two calls the target equals the online value after one call,
and the first call leaves the target untouched. -/
theorem C2_target_sync_witness :
    ((R2D2.runTrain 2 (fun _ p => p + 1) ⟨0, (0 : ℤ), 100⟩ 2).target =
      (R2D2.runTrain 2 (fun _ p => p + 1) ⟨0, (0 : ℤ), 100⟩ 1).online) ∧
    ((R2D2.runTrain 2 (fun _ p => p + 1) ⟨0, (0 : ℤ), 100⟩ 1).target =
      (R2D2.runTrain 2 (fun _ p => p + 1) ⟨0, (0 : ℤ), 100⟩ 0).target) :=
  ⟨(C2_target_sync ℤ 2 (fun _ p => p + 1) ⟨0, 0, 100⟩ (by decide) rfl).1,
   ((C2_target_sync ℤ 2 (fun _ p => p + 1) ⟨0, 0, 100⟩ (by decide) rfl).2 0
     (by decide)).1⟩

/-- C7: the hidden state left behind by `R2D2.act` is the forward pass's new
hidden state, identical whichever way the exploration branch resolves:
for any two explore flags, draws and sampled random actions the stored
state is the same. -/
theorem C7_hidden_state_branch_free (net : H → O → List ℚ × H) (eps : ℚ)
    (state : H) (obs : O) (e1 e2 : Bool) (d1 d2 : ℚ) (r1 r2 : ℕ) :
    (R2D2.act net eps state obs e1 d1 r1).2 = (net state obs).2 ∧
    (R2D2.act net eps state obs e1 d1 r1).2 =
      (R2D2.act net eps state obs e2 d2 r2).2 := by
  refine ⟨?_, ?_⟩
  · unfold R2D2.act; split <;> rfl
  · unfold R2D2.act; split <;> split <;> rfl

/-- C8: one `IndependentTrainer.train()` call increments `total_iterations`
by exactly 1, adds exactly the training-phase sampler's reported episode and
sample counts to `total_episodes` and `total_samples`, and the accumulated
state is independent of the evaluation-phase statistics — evaluation
episodes are never counted into the lifetime totals. -/
theorem C8_train_statistics (s : TrainerState) (bs : SampleStats)
    (ls : List (String × List (String × ℚ))) (es es2 : List (String × ℚ))
    (t1 t2 t3 : ℚ) :
    ((IndependentTrainer.trainStep s bs ls es t1 t2 t3).1.total_iterations =
      s.total_iterations + 1) ∧
    ((IndependentTrainer.trainStep s bs ls es t1 t2 t3).1.total_episodes =
      s.total_episodes + bs.episodes) ∧
    ((IndependentTrainer.trainStep s bs ls es t1 t2 t3).1.total_samples =
      s.total_samples + bs.samples) ∧
    ((IndependentTrainer.trainStep s bs ls es t1 t2 t3).1 =
      (IndependentTrainer.trainStep s bs ls es2 t1 t2 t3).1) :=
  ⟨rfl, rfl, rfl, rfl⟩

/-- C6 counterexample: `Policy.act` accepts the `explore` flag but never
reads it — on a network whose q-row is `[0, 5]` (argmax action 1) it
deterministically returns the greedy action 1 with `explore = true` exactly
as with `explore = false`, consuming no randomness, so it never returns a
uniformly random action as the claim states. -/
theorem C6_policy_act_never_explores :
    Policy.act (fun (s : ℕ) (_ : ℕ) => ([(0 : ℚ), 5], s + 1)) 0 0 true = (1, 1) ∧
    Policy.act (fun (s : ℕ) (_ : ℕ) => ([(0 : ℚ), 5], s + 1)) 0 0 false = (1, 1) := by
  constructor <;> rfl

/-- C6 (amended): `R2D2.act` feeds the observation through the network,
stores the forward pass's new hidden state, and returns the argmax action,
except that when `explore` holds and the per-call draw is at most `epsilon`
it returns the action sampled from the action space instead; `Policy.act`
runs the same forward pass and state update but ignores its `explore`
argument and always returns the argmax action. -/
theorem C6_act_selection (net : H → O → List ℚ × H) (epsilon : ℚ) (state : H)
    (obs : O) (draw : ℚ) (randAct : ℕ) :
    (∀ explore : Bool, explore = true → draw ≤ epsilon →
      R2D2.act net epsilon state obs explore draw randAct =
        (randAct, (net state obs).2)) ∧
    (∀ explore : Bool, ¬(explore = true ∧ draw ≤ epsilon) →
      R2D2.act net epsilon state obs explore draw randAct =
        (argmaxL (net state obs).1, (net state obs).2)) ∧
    (∀ explore : Bool,
      Policy.act net state obs explore =
        (argmaxL (net state obs).1, (net state obs).2)) := by
  refine ⟨fun e he hd => ?_, fun e he => ?_, fun e => rfl⟩
  · simp [R2D2.act, he, hd]
  · simp only [R2D2.act]
    rw [if_neg he]

/-- C6 witness: on a 2-action network with q-row `[0, 5]` and epsilon 1/2, a
draw of 1/4 with `explore = true` returns the sampled action 7, a draw of
3/4 returns the greedy action 1, and `Policy.act` returns the greedy
action 1. -/
theorem C6_act_selection_witness :
    (R2D2.act (fun (s : ℕ) (_ : ℕ) => ([(0 : ℚ), 5], s + 1)) (1/2) 0 0 true (1/4) 7 =
      (7, 1)) ∧
    (R2D2.act (fun (s : ℕ) (_ : ℕ) => ([(0 : ℚ), 5], s + 1)) (1/2) 0 0 true (3/4) 7 =
      (1, 1)) ∧
    (Policy.act (fun (s : ℕ) (_ : ℕ) => ([(0 : ℚ), 5], s + 1)) 0 0 true = (1, 1)) :=
  ⟨(C6_act_selection (fun (s : ℕ) (_ : ℕ) => ([(0 : ℚ), 5], s + 1)) (1/2) 0 0
      (1/4) 7).1 true rfl (by norm_num),
   (C6_act_selection (fun (s : ℕ) (_ : ℕ) => ([(0 : ℚ), 5], s + 1)) (1/2) 0 0
      (3/4) 7).2.1 true (by norm_num),
   (C6_act_selection (fun (s : ℕ) (_ : ℕ) => ([(0 : ℚ), 5], s + 1)) (1/2) 0 0
      (3/4) 7).2.2 true⟩

/-- C9: trainer construction fails with the descriptive configuration error
when the `env` key is absent, fails with the descriptive configuration error
when the `learner` key is absent, and succeeds — never raising on account of
these two keys — when both are present (the external environment and learner
registries being total). -/
theorem C9_construction_errors {EC LC Space Env Learner Pol : Type}
    (gec : String → EC → Env)
    (sp : Env → List (String × Space) × (String → Space))
    (glc : String → Space → Space → LC → Learner)
    (mp : Learner → Bool → Pol) (eEC : EC) (eLC : LC)
    (config : TrainerConfig EC LC) :
    (config.env = none →
      IndependentTrainer.build gec sp glc mp eEC eLC config =
        Except.error "must specify environment through env parameter") ∧
    (config.env ≠ none → config.learner = none →
      IndependentTrainer.build gec sp glc mp eEC eLC config =
        Except.error "must specify learning algorithm through learner parameter") ∧
    (config.env ≠ none → config.learner ≠ none →
      ∃ t, IndependentTrainer.build gec sp glc mp eEC eLC config =
        Except.ok t) := by
  refine ⟨fun he => ?_, fun he hl => ?_, fun he hl => ?_⟩
  · simp [IndependentTrainer.build, he]
  · obtain ⟨e, hee⟩ := Option.ne_none_iff_exists.mp he
    simp [IndependentTrainer.build, ← hee, hl]
  · obtain ⟨e, hee⟩ := Option.ne_none_iff_exists.mp he
    obtain ⟨l, hll⟩ := Option.ne_none_iff_exists.mp hl
    simp only [IndependentTrainer.build, ← hee, ← hll]
    exact ⟨_, rfl⟩

/-- C9 witness: with all collaborator types trivial, a configuration missing
`env` is rejected with the environment message, one with `env` but no
`learner` is rejected with the learner message, and one with both keys
constructs a trainer. -/
theorem C9_construction_errors_witness :
    (IndependentTrainer.build (fun (_ : String) (_ : Unit) => ())
        (fun _ => ([], fun _ => ())) (fun (_ : String) (_ _ : Unit) (_ : Unit) => ())
        (fun _ _ => ()) () ()
        ⟨none, none, none, some "r2d2", none, none, none, none⟩ =
      Except.error "must specify environment through env parameter") ∧
    (IndependentTrainer.build (fun (_ : String) (_ : Unit) => ())
        (fun _ => ([], fun _ => ())) (fun (_ : String) (_ _ : Unit) (_ : Unit) => ())
        (fun _ _ => ()) () ()
        ⟨some "memory", none, none, none, none, none, none, none⟩ =
      Except.error "must specify learning algorithm through learner parameter") ∧
    (∃ t, IndependentTrainer.build (fun (_ : String) (_ : Unit) => ())
        (fun _ => ([], fun _ => ())) (fun (_ : String) (_ _ : Unit) (_ : Unit) => ())
        (fun _ _ => ()) () ()
        ⟨some "memory", none, none, some "r2d2", none, none, none, none⟩ =
      Except.ok t) :=
  ⟨(C9_construction_errors _ _ _ _ () ()
      ⟨none, none, none, some "r2d2", none, none, none, none⟩).1 rfl,
   (C9_construction_errors _ _ _ _ () ()
      ⟨some "memory", none, none, none, none, none, none, none⟩).2.1
      (by simp) rfl,
   (C9_construction_errors _ _ _ _ () ()
      ⟨some "memory", none, none, some "r2d2", none, none, none, none⟩).2.2
      (by simp) (by simp)⟩

/-- Auxiliary invariant of the `while not done` loop: each pass appends one
element to each of the four lists, so the collected episode keeps one more
observation than actions, rewards and done flags. -/
theorem rolloutLoop_shape (stp : σ → Act → σ × Obs × ℚ × Bool)
    (act : α → Obs → Act × α) :
    ∀ (fuel : ℕ) (es : σ) (ag : α) (obs : Obs) (obsL : List Obs)
      (actL : List Act) (rewL : List ℚ) (doneL : List Bool)
      (ep : Episode Obs Act),
      obsL.length = actL.length + 1 → rewL.length = actL.length →
      doneL.length = actL.length →
      rolloutLoop stp act fuel es ag obs obsL actL rewL doneL = some ep →
      ep.observations.length = ep.actions.length + 1 ∧
      ep.rewards.length = ep.actions.length ∧
      ep.dones.length = ep.actions.length := by
  intro fuel
  induction fuel with
  | zero => intro _ _ _ _ _ _ _ _ _ _ _ hloop; exact absurd hloop (by simp [rolloutLoop])
  | succ fuel ih =>
    intro es ag obs obsL actL rewL doneL ep hobs hrew hdone hloop
    rw [rolloutLoop] at hloop
    rcases hact : act ag obs with ⟨action, ag2⟩
    rw [hact] at hloop
    dsimp only at hloop
    rcases hstp : stp es action with ⟨es2, obs2, reward, done⟩
    rw [hstp] at hloop
    dsimp only at hloop
    by_cases hdn : done = true
    · rw [if_pos hdn] at hloop
      cases hloop
      simp [hobs, hrew, hdone]
    · rw [if_neg hdn] at hloop
      exact ih es2 ag2 obs2 _ _ _ _ ep (by simp [hobs]) (by simp [hrew])
        (by simp [hdone]) hloop

/-- C4: every episode the rollout loop of `R2D2.train` completes (from
environment reset to a step reporting done) has exactly one more observation
than actions, rewards and done flags:
`len(observations) = len(actions) + 1 = len(rewards) + 1 = len(dones) + 1`. -/
theorem C4_episode_shape (stp : σ → Act → σ × Obs × ℚ × Bool)
    (act : α → Obs → Act × α) (fuel : ℕ) (es0 : σ) (ag0 : α) (obs0 : Obs)
    (ep : Episode Obs Act) (h : rollout stp act fuel es0 ag0 obs0 = some ep) :
    ep.observations.length = ep.actions.length + 1 ∧
    ep.observations.length = ep.rewards.length + 1 ∧
    ep.observations.length = ep.dones.length + 1 := by
  obtain ⟨h1, h2, h3⟩ := rolloutLoop_shape stp act fuel es0 ag0 obs0 [obs0]
    [] [] [] ep (by simp) (by simp) (by simp) h
  omega

/-- Auxiliary: `padSequence` has one row per timestep up to the longest
sequence length. -/
theorem padSequence_length (pad : α) (seqs : List (List α)) :
    (padSequence pad seqs).length = (seqs.map List.length).foldr max 0 := by
  simp [padSequence]

/-- Auxiliary: entry `(t, j)` of a padded batch is entry `t` of sequence
`j`, defaulting to the pad value past the sequence's end. -/
theorem padSequence_entry (pad d : α) (seqs : List (List α)) (t j : ℕ)
    (ht : t < (seqs.map List.length).foldr max 0) (hj : j < seqs.length) :
    ((padSequence pad seqs).getD t []).getD j d = (seqs.getD j []).getD t pad := by
  have hlen : t < (padSequence pad seqs).length := by
    rw [padSequence_length]; exact ht
  rw [List.getD_eq_getElem _ _ hlen]
  have hrow : (padSequence pad seqs)[t] = seqs.map (fun s => s.getD t pad) := by
    simp [padSequence]
  rw [hrow]
  have hj2 : j < (seqs.map (fun s => s.getD t pad)).length := by simpa using hj
  rw [List.getD_eq_getElem _ _ hj2, List.getElem_map,
    List.getD_eq_getElem _ _ hj]

/-- C3: for a well-formed buffer and any in-range draw of episode indices,
`ReplayBuffer.sample` returns six tensors all padded to the longest sampled
episode length `maxT`, in which — writing `len` for the true length (the
step count) of the `j`-th sampled episode — the observation entry at
`(t, j)` is step `t` of that episode's observations (the last observation
dropped) for `t < len` and zero beyond; the next-observation entry is step
`t + 1` (the first observation dropped) for `t < len` and zero beyond; the
one-hot action entry is the episode's stored action row for `t < len` and
the zero row beyond; the reward entry is the episode's reward for `t < len`
and zero beyond; and the mask entry is 1 exactly when `t < len`. -/
theorem C3_sample_batch (b : ReplayBuffer) (indices : List ℕ)
    (idx len maxT t j : ℕ)
    (hpar : b.actions.length = b.obs.length ∧ b.rewards.length = b.obs.length ∧
      b.dones.length = b.obs.length)
    (hshape : ∀ i < b.obs.length,
      (b.obs.getD i []).length = (b.dones.getD i []).length + 1 ∧
      (b.actions.getD i []).length = (b.dones.getD i []).length ∧
      (b.rewards.getD i []).length = (b.dones.getD i []).length)
    (hidx : ∀ i ∈ indices, i < b.actions.length)
    (hj : j < indices.length)
    (hidxj : idx = indices.getD j 0)
    (hlen : len = (b.dones.getD idx []).length)
    (hmax : maxT = (indices.map (fun i => (b.dones.getD i []).length)).foldr max 0)
    (ht : t < maxT) :
    ((b.sample indices).1.length = maxT ∧
     (b.sample indices).2.1.length = maxT ∧
     (b.sample indices).2.2.1.length = maxT ∧
     (b.sample indices).2.2.2.1.length = maxT ∧
     (b.sample indices).2.2.2.2.1.length = maxT ∧
     (b.sample indices).2.2.2.2.2.length = maxT) ∧
    (((b.sample indices).1.getD t []).getD j 0 =
      if t < len then (b.obs.getD idx []).getD t 0 else 0) ∧
    (((b.sample indices).2.1.getD t []).getD j 0 =
      if t < len then (b.obs.getD idx []).getD (t + 1) 0 else 0) ∧
    (((b.sample indices).2.2.1.getD t []).getD j (List.replicate b.n 0) =
      if t < len then (b.actions.getD idx []).getD t (List.replicate b.n 0)
      else List.replicate b.n 0) ∧
    (((b.sample indices).2.2.2.1.getD t []).getD j 0 =
      if t < len then (b.rewards.getD idx []).getD t 0 else 0) ∧
    (((b.sample indices).2.2.2.2.2.getD t []).getD j 0 =
      if t < len then 1 else 0) := by
  obtain ⟨hpa, hpr, hpd⟩ := hpar
  have hio : ∀ i ∈ indices, i < b.obs.length := fun i hi => hpa ▸ hidx i hi
  have hmem : idx ∈ indices := by
    rw [hidxj, List.getD_eq_getElem _ _ hj]
    exact List.getElem_mem hj
  have hilt : idx < b.obs.length := hio idx hmem
  -- per-sequence lengths equal the episode's step count
  have hLobs : ∀ i ∈ indices,
      ((b.obs.getD i []).dropLast).length = (b.dones.getD i []).length := by
    intro i hi
    have h1 := (hshape i (hio i hi)).1
    rw [List.length_dropLast, h1]
    omega
  have hLnext : ∀ i ∈ indices,
      ((b.obs.getD i []).tail).length = (b.dones.getD i []).length := by
    intro i hi
    have h1 := (hshape i (hio i hi)).1
    rw [List.length_tail, h1]
    omega
  have hLact : ∀ i ∈ indices,
      (b.actions.getD i []).length = (b.dones.getD i []).length :=
    fun i hi => (hshape i (hio i hi)).2.1
  have hLrew : ∀ i ∈ indices,
      (b.rewards.getD i []).length = (b.dones.getD i []).length :=
    fun i hi => (hshape i (hio i hi)).2.2
  have hLmask : ∀ i ∈ indices,
      ((b.dones.getD i []).map (fun _ => (1 : ℤ))).length =
        (b.dones.getD i []).length := by
    intro i _
    exact List.length_map _ _
  -- fold-max of every sequence family equals maxT
  have hfold : ∀ (f : ℕ → List ℤ),
      (∀ i ∈ indices, (f i).length = (b.dones.getD i []).length) →
      ((indices.map f).map List.length).foldr max 0 = maxT := by
    intro f hf
    rw [List.map_map, hmax]
    congr 1
    exact List.map_eq_map_iff.mpr (fun i hi => hf i hi)
  have hfoldA :
      ((indices.map (fun i => b.actions.getD i [])).map List.length).foldr max 0 =
        maxT := by
    rw [List.map_map, hmax]
    congr 1
    exact List.map_eq_map_iff.mpr (fun i hi => hLact i hi)
  -- entry extraction for mapped sequence families
  have hseq : ∀ {γ : Type} (f : ℕ → List γ), (indices.map f).getD j [] = f idx := by
    intro γ f
    rw [List.getD_eq_getElem _ _ (by simpa using hj), List.getElem_map, hidxj,
      List.getD_eq_getElem _ _ hj]
  have hjf : ∀ {γ : Type} (f : ℕ → List γ), j < (indices.map f).length := by
    intro γ f
    simpa using hj
  simp only [ReplayBuffer.sample]
  refine ⟨⟨?_, ?_, ?_, ?_, ?_, ?_⟩, ?_, ?_, ?_, ?_, ?_⟩
  · rw [padSequence_length, hfold _ hLobs]
  · rw [padSequence_length, hfold _ hLnext]
  · rw [padSequence_length, hfoldA]
  · rw [padSequence_length, hfold _ hLrew]
  · rw [padSequence_length, hfold _ (fun i _ => rfl)]
  · rw [padSequence_length, hfold _ hLmask]
  · -- observations: episode's observations with the last step dropped
    rw [padSequence_entry _ _ _ _ _ (by rw [hfold _ hLobs]; exact ht) (hjf _),
      hseq]
    by_cases hcase : t < len
    · rw [if_pos hcase]
      have htl : t < ((b.obs.getD idx []).dropLast).length := by
        rw [hLobs idx hmem, ← hlen]; exact hcase
      have hto : t < (b.obs.getD idx []).length := by
        rw [List.length_dropLast] at htl; omega
      rw [List.getD_eq_getElem _ _ htl, List.getElem_dropLast,
        List.getD_eq_getElem _ _ hto]
    · rw [if_neg hcase]
      exact List.getD_eq_default _ _ (by rw [hLobs idx hmem, ← hlen]; omega)
  · -- next observations: the same observations with the first step dropped
    rw [padSequence_entry _ _ _ _ _ (by rw [hfold _ hLnext]; exact ht) (hjf _),
      hseq]
    by_cases hcase : t < len
    · rw [if_pos hcase]
      have htl : t < ((b.obs.getD idx []).tail).length := by
        rw [hLnext idx hmem, ← hlen]; exact hcase
      have hto : t + 1 < (b.obs.getD idx []).length := by
        rw [List.length_tail] at htl; omega
      rw [List.getD_eq_getElem _ _ htl, List.getElem_tail,
        List.getD_eq_getElem _ _ hto]
    · rw [if_neg hcase]
      exact List.getD_eq_default _ _ (by rw [hLnext idx hmem, ← hlen]; omega)
  · -- one-hot actions
    rw [padSequence_entry _ _ _ _ _ (by rw [hfoldA]; exact ht) (hjf _), hseq]
    by_cases hcase : t < len
    · rw [if_pos hcase]
    · rw [if_neg hcase]
      exact List.getD_eq_default _ _ (by rw [hLact idx hmem, ← hlen]; omega)
  · -- rewards
    rw [padSequence_entry _ _ _ _ _ (by rw [hfold _ hLrew]; exact ht) (hjf _),
      hseq]
    by_cases hcase : t < len
    · rw [if_pos hcase]
    · rw [if_neg hcase]
      exact List.getD_eq_default _ _ (by rw [hLrew idx hmem, ← hlen]; omega)
  · -- mask: ones along the episode, zeros on the padding
    rw [padSequence_entry _ _ _ _ _ (by rw [hfold _ hLmask]; exact ht) (hjf _),
      hseq]
    by_cases hcase : t < len
    · rw [if_pos hcase]
      have htm : t < ((b.dones.getD idx []).map (fun _ => (1 : ℤ))).length := by
        rw [hLmask idx hmem, ← hlen]; exact hcase
      rw [List.getD_eq_getElem _ _ htm, List.getElem_map]
    · rw [if_neg hcase]
      exact List.getD_eq_default _ _ (by rw [hLmask idx hmem, ← hlen]; omega)

/-- A concrete two-episode buffer used to witness C3: episode 0 has 2 steps,
episode 1 has 1 step. -/
def sampleBuf : ReplayBuffer :=
  ⟨2, 10, 0, [[1, 2, 3], [6, 7]], [[[1, 0], [0, 1]], [[0, 1]]],
   [[4, 5], [8]], [[0, 1], [1]]⟩

/-- C3 witness: sampling episodes `[1, 0]` from the concrete buffer pads to
2 rows; for the first batch column (episode 1, one step) the mask is 1 at
`t = 0` and 0 at the padded `t = 1`, and the padded observation entry is
zero. -/
theorem C3_sample_batch_witness :
    ((sampleBuf.sample [1, 0]).2.2.2.2.2.getD 0 []).getD 0 0 = 1 ∧
    ((sampleBuf.sample [1, 0]).2.2.2.2.2.getD 1 []).getD 0 0 = 0 ∧
    ((sampleBuf.sample [1, 0]).1.getD 1 []).getD 0 0 = 0 ∧
    (sampleBuf.sample [1, 0]).1.length = 2 := by
  refine ⟨?_, ?_, ?_, ?_⟩
  · have h := (C3_sample_batch sampleBuf [1, 0] 1 1 2 0 0 (by decide)
      (by decide) (by decide) (by decide) (by decide) (by decide) (by decide)
      (by decide)).2.2.2.2.2
    simpa using h
  · have h := (C3_sample_batch sampleBuf [1, 0] 1 1 2 1 0 (by decide)
      (by decide) (by decide) (by decide) (by decide) (by decide) (by decide)
      (by decide)).2.2.2.2.2
    simpa using h
  · have h := (C3_sample_batch sampleBuf [1, 0] 1 1 2 1 0 (by decide)
      (by decide) (by decide) (by decide) (by decide) (by decide) (by decide)
      (by decide)).2.1
    simpa using h
  · exact (C3_sample_batch sampleBuf [1, 0] 1 1 2 1 0 (by decide)
      (by decide) (by decide) (by decide) (by decide) (by decide) (by decide)
      (by decide)).1.1

/-- Auxiliary: the value of the running maximum fold is the fold of the
values under `max`. -/
theorem dmaxRow_fold_fst (xs : List Dual) (x : Dual) :
    (xs.foldl (fun m y => if m.1 < y.1 then y else m) x).1 =
      (xs.map Prod.fst).foldl max x.1 := by
  induction xs generalizing x with
  | nil => rfl
  | cons y ys ih =>
    simp only [List.foldl, List.map]
    rw [ih]
    congr 1
    by_cases h : x.1 < y.1
    · rw [if_pos h]
      exact (max_eq_right (le_of_lt h)).symm
    · rw [if_neg h]
      exact (max_eq_left (not_lt.mp h)).symm

/-- Auxiliary: the value of `Tensor.max(-1).values` is the plain maximum of
the values. -/
theorem dmaxRow_fst (l : List Dual) : (dmaxRow l).1 = listMaxQ (l.map Prod.fst) := by
  cases l with
  | nil => rfl
  | cons x xs => exact dmaxRow_fold_fst xs x

/-- Auxiliary: the value of a sum of dual scalars is the sum of the
values. -/
theorem dualListSum_fst (l : List Dual) : l.sum.1 = (l.map Prod.fst).sum := by
  induction l with
  | nil => rfl
  | cons x xs ih => simp [ih]

/-- Auxiliary: the values of an elementwise dual product are the elementwise
products of the values. -/
theorem zipWith_dmul_fst (xs ys : List Dual) :
    (List.zipWith dmul xs ys).map Prod.fst =
      List.zipWith (· * ·) (xs.map Prod.fst) (ys.map Prod.fst) := by
  induction xs generalizing ys with
  | nil => rfl
  | cons x xs ih =>
    cases ys with
    | nil => rfl
    | cons y ys => simp [dmul, ih]

/-- Auxiliary: the value of the smooth-L1 error against a detached target is
the Huber error of the values. -/
theorem smoothL1_detach_fst (beta : ℚ) (a q : Dual) :
    (smoothL1 beta a (detach q)).1 = huberSpec beta a.1 q.1 := by
  simp only [smoothL1, huberSpec]
  have hz : (a - detach q).1 = a.1 - q.1 := rfl
  rw [hz]
  split_ifs with h
  · show 1 / (2 * beta) * ((a.1 - q.1) * (a.1 - q.1)) = (a.1 - q.1) ^ 2 / (2 * beta)
    rw [pow_two]
    ring
  all_goals rfl

/-- Auxiliary: the value of one masked error entry of the loss equals the
spec's masked Huber term for that entry. -/
theorem loss_entry_fst (gamma beta : ℚ) (m r d : Dual) (act onl tq : List Dual) :
    (dmul m (smoothL1 beta ((List.zipWith dmul act onl).sum)
        (detach (r + dmul (dmul (dconst gamma) (dconst 1 - d)) (dmaxRow tq))))).1 =
      m.1 * huberSpec beta
        ((List.zipWith (· * ·) (act.map Prod.fst) (onl.map Prod.fst)).sum)
        (r.1 + gamma * (1 - d.1) * listMaxQ (tq.map Prod.fst)) := by
  show m.1 * (smoothL1 beta ((List.zipWith dmul act onl).sum)
      (detach (r + dmul (dmul (dconst gamma) (dconst 1 - d)) (dmaxRow tq)))).1 = _
  rw [smoothL1_detach_fst]
  congr 2
  · rw [dualListSum_fst, zipWith_dmul_fst]
  · show r.1 + gamma * (1 - d.1) * (dmaxRow tq).1 = _
    rw [dmaxRow_fst]

/-- C5: the value of `R2D2._loss` on a padded batch equals the spec's
formula — the mean over the entire padded tensor, divisor the full padded
size `T * B`, of mask times the Huber error between the sum over actions of
`one_hot_action * Q_online(obs)` and the bootstrap target
`reward + gamma * (1 - done) * max_a Q_target(next_obs, a)` — and, because
the target term is detached, the loss (value and derivative alike) is
unchanged when the target network outputs are replaced by any others with
the same values: no gradient flows through the target term. -/
theorem C5_loss_formula (T B : ℕ) (gamma beta : ℚ)
    (onlineQ targetQ targetQ2 action : Fin T → Fin B → List Dual)
    (reward done mask : Fin T → Fin B → Dual)
    (hval : ∀ t b, (targetQ t b).map Prod.fst = (targetQ2 t b).map Prod.fst) :
    ((R2D2.loss T B gamma beta onlineQ targetQ action reward done mask).1 =
      lossSpec T B gamma beta
        (fun t b => (onlineQ t b).map Prod.fst)
        (fun t b => (targetQ t b).map Prod.fst)
        (fun t b => (action t b).map Prod.fst)
        (fun t b => (reward t b).1) (fun t b => (done t b).1)
        (fun t b => (mask t b).1)) ∧
    R2D2.loss T B gamma beta onlineQ targetQ action reward done mask =
      R2D2.loss T B gamma beta onlineQ targetQ2 action reward done mask := by
  constructor
  · simp only [R2D2.loss, lossSpec]
    show (1 / ((T : ℚ) * B)) *
        (∑ t : Fin T, ∑ b : Fin B, dmul (mask t b)
          (smoothL1 beta ((List.zipWith dmul (action t b) (onlineQ t b)).sum)
            (detach (reward t b +
              dmul (dmul (dconst gamma) (dconst 1 - done t b))
                (dmaxRow (targetQ t b)))))).1 = _
    rw [Prod.fst_sum]
    rw [Finset.sum_congr rfl (fun t _ => Prod.fst_sum)]
    rw [Finset.sum_congr rfl (fun (t : Fin T) _ => Finset.sum_congr rfl
      (fun (b : Fin B) _ => loss_entry_fst gamma beta (mask t b) (reward t b)
        (done t b) (action t b) (onlineQ t b) (targetQ t b)))]
    rw [one_div, inv_mul_eq_div]
  · simp only [R2D2.loss]
    congr 1
    refine Finset.sum_congr rfl fun t _ => Finset.sum_congr rfl fun b _ => ?_
    have h2 : (dmaxRow (targetQ t b)).1 = (dmaxRow (targetQ2 t b)).1 := by
      rw [dmaxRow_fst, dmaxRow_fst, hval t b]
    have hq : detach (reward t b +
        dmul (dmul (dconst gamma) (dconst 1 - done t b)) (dmaxRow (targetQ t b))) =
        detach (reward t b +
          dmul (dmul (dconst gamma) (dconst 1 - done t b)) (dmaxRow (targetQ2 t b))) := by
      have hv : (reward t b +
          dmul (dmul (dconst gamma) (dconst 1 - done t b)) (dmaxRow (targetQ t b))).1 =
          (reward t b +
            dmul (dmul (dconst gamma) (dconst 1 - done t b)) (dmaxRow (targetQ2 t b))).1 := by
        show (reward t b).1 + gamma * (1 - (done t b).1) * (dmaxRow (targetQ t b)).1 =
          (reward t b).1 + gamma * (1 - (done t b).1) * (dmaxRow (targetQ2 t b)).1
        rw [h2]
      simp only [detach]
      rw [hv]
    rw [hq]

/-- C5 witness: a 1-timestep, 1-episode, 1-action batch where the two target
tensors `[(3, 5)]` and `[(3, 7)]` share values but differ in derivative:
the loss value matches the spec formula and the loss is identical for
both targets. -/
theorem C5_loss_formula_witness :
    ((R2D2.loss 1 1 (1/2) 1 (fun _ _ => [((2 : ℚ), 1)])
        (fun _ _ => [((3 : ℚ), 5)]) (fun _ _ => [((1 : ℚ), 0)])
        (fun _ _ => ((1 : ℚ), 0)) (fun _ _ => ((0 : ℚ), 0))
        (fun _ _ => ((1 : ℚ), 0))).1 =
      lossSpec 1 1 (1/2) 1
        (fun t b => ((fun (_ : Fin 1) (_ : Fin 1) => [((2 : ℚ), 1)]) t b).map Prod.fst)
        (fun t b => ((fun (_ : Fin 1) (_ : Fin 1) => [((3 : ℚ), 5)]) t b).map Prod.fst)
        (fun t b => ((fun (_ : Fin 1) (_ : Fin 1) => [((1 : ℚ), 0)]) t b).map Prod.fst)
        (fun t b => ((fun (_ : Fin 1) (_ : Fin 1) => ((1 : ℚ), 0)) t b).1)
        (fun t b => ((fun (_ : Fin 1) (_ : Fin 1) => ((0 : ℚ), 0)) t b).1)
        (fun t b => ((fun (_ : Fin 1) (_ : Fin 1) => ((1 : ℚ), 0)) t b).1)) ∧
    R2D2.loss 1 1 (1/2) 1 (fun _ _ => [((2 : ℚ), 1)]) (fun _ _ => [((3 : ℚ), 5)])
        (fun _ _ => [((1 : ℚ), 0)]) (fun _ _ => ((1 : ℚ), 0))
        (fun _ _ => ((0 : ℚ), 0)) (fun _ _ => ((1 : ℚ), 0)) =
      R2D2.loss 1 1 (1/2) 1 (fun _ _ => [((2 : ℚ), 1)]) (fun _ _ => [((3 : ℚ), 7)])
        (fun _ _ => [((1 : ℚ), 0)]) (fun _ _ => ((1 : ℚ), 0))
        (fun _ _ => ((0 : ℚ), 0)) (fun _ _ => ((1 : ℚ), 0)) :=
  C5_loss_formula 1 1 (1/2) 1 (fun _ _ => [((2 : ℚ), 1)])
    (fun _ _ => [((3 : ℚ), 5)]) (fun _ _ => [((3 : ℚ), 7)])
    (fun _ _ => [((1 : ℚ), 0)]) (fun _ _ => ((1 : ℚ), 0))
    (fun _ _ => ((0 : ℚ), 0)) (fun _ _ => ((1 : ℚ), 0)) (fun _ _ => rfl)

/-- C4 witness: an environment that terminates on the first step yields the
episode `⟨[5, 0], [0], [0], [true]⟩`, which has two observations and one
action, reward and done flag. -/
theorem C4_episode_shape_witness :
    ((⟨[5, 0], [0], [0], [true]⟩ : Episode ℕ ℕ).observations.length =
      (⟨[5, 0], [0], [0], [true]⟩ : Episode ℕ ℕ).actions.length + 1) ∧
    ((⟨[5, 0], [0], [0], [true]⟩ : Episode ℕ ℕ).observations.length =
      (⟨[5, 0], [0], [0], [true]⟩ : Episode ℕ ℕ).rewards.length + 1) ∧
    ((⟨[5, 0], [0], [0], [true]⟩ : Episode ℕ ℕ).observations.length =
      (⟨[5, 0], [0], [0], [true]⟩ : Episode ℕ ℕ).dones.length + 1) :=
  C4_episode_shape (fun (s : ℕ) (_ : ℕ) => (s, 0, 0, true))
    (fun (a : ℕ) (_ : ℕ) => (0, a)) 3 0 0 5 ⟨[5, 0], [0], [0], [true]⟩ rfl
